import Mathlib

/-!
Shallow embedding of the syntect-based printer of hgrep (src/syntect.rs).

The embedding mirrors the Rust source function by function.  The output
sink (`W: Write`) is modelled as a list of strings: every `write!`,
`writeln!` or `write_all` call appends exactly one string to the list.
External crates (unicode_width, rgb2ansi256, the syntect highlighter and
the theme/syntax databases) are modelled as parameters: the functions of
this file are proved for every behaviour of those parameters.

Machine integers (`u8`, `u16`, `usize`) never overflow in the modelled
code paths; they are embedded as `Nat`.  Rust `usize` subtraction is
embedded as truncated `Nat` subtraction; it is only relied on under the
hypotheses (`width ≤ limit`) that hold at every call site in the source.
-/

/-- Color of syntect (syntect::highlighting::Color): r, g, b, a as u8. -/
structure Color where
  r : Nat
  g : Nat
  b : Nat
  a : Nat
deriving DecidableEq

/-- FontStyle of syntect, a bitflags set with BOLD, UNDERLINE, ITALIC. -/
structure FontStyle where
  bold : Bool
  underline : Bool
  italic : Bool
deriving DecidableEq

/-- Style of syntect: foreground, background, font style. -/
structure Style where
  foreground : Color
  background : Color
  fontStyle : FontStyle
deriving DecidableEq

/-- Token (src/syntect.rs): a styled slice of one line.  Rust holds a
`&str`; we hold the characters, and recover byte offsets from the UTF-8
size of each character. -/
structure Token where
  style : Style
  text : List Char
deriving DecidableEq

/-- Byte length of a text, as Rust `str::len` counts it (UTF-8). -/
def byteLen (text : List Char) : Nat :=
  (text.map Char.utf8Size).sum

/-- RegionBoundary (src/syntect.rs lines 106-111). -/
inductive RegionBoundary where
  | start
  | stop (fg : Color)
  | none
deriving DecidableEq

/-- Region (src/syntect.rs lines 113-117): match region in a matched
line, a byte range option. -/
structure Region where
  range : Option (Nat × Nat)
deriving DecidableEq

/-- RegionBoundaries (src/syntect.rs lines 119-123). -/
structure RegionBoundaries where
  offset : Nat
  range : Nat × Nat
  fg : Color
deriving DecidableEq

/-- RegionBoundaries::boundary_at (src/syntect.rs lines 126-136). -/
def RegionBoundaries.boundaryAt (bs : RegionBoundaries) (idxInToken : Nat) : RegionBoundary :=
  let offset := bs.offset + idxInToken
  if bs.range.1 = offset then .start
  else if bs.range.2 = offset then .stop bs.fg
  else .none

/-- Region::slide_left (src/syntect.rs lines 140-145).  Rust
`saturating_sub` is `Nat` subtraction. -/
def Region.slideLeft (rg : Region) (bytes : Nat) : Region :=
  match rg.range with
  | Option.none => rg
  | some (s, e) =>
    let s := s - bytes
    let e := e - bytes
    ⟨if s ≠ e then some (s, e) else Option.none⟩

/-- Region::boundaries (src/syntect.rs lines 148-162). -/
def Region.boundaries (rg : Region) (tokenStart tokenEnd : Nat) (fg : Color) :
    Option RegionBoundaries :=
  match rg.range with
  | Option.none => Option.none
  | some (rs, re) =>
    let includeStart := tokenStart ≤ rs ∧ rs ≤ tokenEnd
    let includeEnd := tokenStart ≤ re ∧ re ≤ tokenEnd
    if includeStart ∨ includeEnd then some ⟨tokenStart, (rs, re), fg⟩ else Option.none

/-- Region::contains (src/syntect.rs lines 164-170). -/
def Region.contains (rg : Region) (byteOffset : Nat) : Bool :=
  match rg.range with
  | Option.none => false
  | some (s, e) => s ≤ byteOffset ∧ byteOffset ≤ e

/-- Canvas (src/syntect.rs lines 173-185).  The writer `out` is the list
of strings written so far.  `themeBg` stands for
`theme.settings.background`; `wcwidth` models the external
`unicode_width` crate (`char::width_cjk`); `rgb256` models the external
`rgb2ansi256::rgb_to_ansi256`. -/
structure Canvas where
  out : List String
  tabWidth : Nat
  themeBg : Option Color
  trueColor : Bool
  hasBackground : Bool
  matchBg : Option Color
  regionFg : Option Color
  regionBg : Option Color
  wrap : Bool
  currentFg : Option Color
  currentBg : Option Color
  wcwidth : Char → Option Nat
  rgb256 : Nat → Nat → Nat → Nat

/-- One `write!` to the underlying writer. -/
def Canvas.emit (cv : Canvas) (s : String) : Canvas :=
  { cv with out := cv.out ++ [s] }

/-- Canvas::draw_spaces (src/syntect.rs lines 235-240): a loop of
single-space `write_all` calls. -/
def Canvas.drawSpaces (cv : Canvas) (num : Nat) : Canvas :=
  { cv with out := cv.out ++ List.replicate num " " }

/-- Canvas::draw_newline (src/syntect.rs lines 242-247). -/
def Canvas.drawNewline (cv : Canvas) : Canvas :=
  { cv.emit "\x1b[0m\n" with currentFg := Option.none, currentBg := Option.none }

/-- Canvas::set_color (src/syntect.rs lines 249-267).  The match arms
are in source order: `0 if c.r <= 7`, `0`, `1`, `_ if self.true_color`,
`_`. -/
def Canvas.setColor (cv : Canvas) (code : Nat) (c : Color) : Canvas :=
  if c.a = 0 ∧ c.r ≤ 7 then
    cv.emit ("\x1b[" ++ toString (c.r + code) ++ "m")
  else if c.a = 0 then
    cv.emit ("\x1b[" ++ toString (code + 8) ++ ";5;" ++ toString c.r ++ "m")
  else if c.a = 1 then
    cv
  else if cv.trueColor then
    cv.emit ("\x1b[" ++ toString (code + 8) ++ ";2;" ++ toString c.r ++ ";"
      ++ toString c.g ++ ";" ++ toString c.b ++ "m")
  else
    cv.emit ("\x1b[" ++ toString (code + 8) ++ ";5;" ++ toString (cv.rgb256 c.r c.g c.b) ++ "m")

/-- Canvas::set_bg (src/syntect.rs lines 269-275). -/
def Canvas.setBg (cv : Canvas) (c : Color) : Canvas :=
  if cv.currentBg ≠ some c then
    { cv.setColor 40 c with currentBg := some c }
  else cv

/-- Canvas::set_fg (src/syntect.rs lines 277-283). -/
def Canvas.setFg (cv : Canvas) (c : Color) : Canvas :=
  if cv.currentFg ≠ some c then
    { cv.setColor 30 c with currentFg := some c }
  else cv

/-- Canvas::set_default_bg (src/syntect.rs lines 285-292). -/
def Canvas.setDefaultBg (cv : Canvas) : Canvas :=
  if cv.hasBackground then
    match cv.themeBg with
    | some bg => cv.setBg bg
    | Option.none => cv
  else cv

/-- Canvas::set_bold (src/syntect.rs lines 294-297). -/
def Canvas.setBold (cv : Canvas) : Canvas :=
  cv.emit "\x1b[1m"

/-- Canvas::set_underline (src/syntect.rs lines 299-302). -/
def Canvas.setUnderline (cv : Canvas) : Canvas :=
  cv.emit "\x1b[4m"

/-- Canvas::set_font_style (src/syntect.rs lines 304-312). -/
def Canvas.setFontStyle (cv : Canvas) (style : FontStyle) : Canvas :=
  let cv := if style.bold then cv.setBold else cv
  if style.underline then cv.setUnderline else cv

/-- Canvas::unset_font_style (src/syntect.rs lines 314-322). -/
def Canvas.unsetFontStyle (cv : Canvas) (style : FontStyle) : Canvas :=
  let cv := if style.bold then cv.emit "\x1b[22m" else cv
  if style.underline then cv.emit "\x1b[24m" else cv

/-- Canvas::set_match_bg_color (src/syntect.rs lines 324-329). -/
def Canvas.setMatchBgColor (cv : Canvas) : Canvas :=
  match cv.matchBg with
  | some bg => cv.setBg bg
  | Option.none => cv

/-- Canvas::set_region_color (src/syntect.rs lines 331-339). -/
def Canvas.setRegionColor (cv : Canvas) : Canvas :=
  let cv := match cv.regionFg with
    | some c => cv.setFg c
    | Option.none => cv
  match cv.regionBg with
  | some c => cv.setBg c
  | Option.none => cv

/-- Canvas::set_boundary_color (src/syntect.rs lines 341-350). -/
def Canvas.setBoundaryColor (cv : Canvas) (boundary : RegionBoundary) : Canvas :=
  match boundary with
  | .start => cv.setRegionColor
  | .stop fg => (cv.setFg fg).setMatchBgColor
  | .none => cv

/-- LineDrawState (src/syntect.rs lines 199-202). -/
inductive LineDrawState where
  | cont (width : Nat)
  | brk (rest : List Char)
deriving DecidableEq

/-- The zero width joiner character U+200D. -/
def zwjChar : Char := Char.ofNat 0x200D

/-- Loop body of Canvas::draw_text (src/syntect.rs lines 353-395),
recursing over `text.char_indices()`: `i` is the byte index of the head
character, `width` the accumulated width and `sawZwj` the zero width
joiner flag. -/
def Canvas.drawTextGo (limit : Nat) (bounds : Option RegionBoundaries) :
    Canvas → List Char → Nat → Nat → Bool → Canvas × LineDrawState
  | cv, [], _, width, _ => (cv, .cont width)
  | cv, c :: rest, i, width, sawZwj =>
    let cv := match bounds with
      | some bs => cv.setBoundaryColor (bs.boundaryAt i)
      | Option.none => cv
    if c = '\t' ∧ 0 < cv.tabWidth then
      let w := cv.tabWidth
      if limit < width + w then
        -- pad the rest of the current visual line and break after the tab
        (cv.drawSpaces (limit - width), .brk rest)
      else
        Canvas.drawTextGo limit bounds (cv.drawSpaces w) rest (i + 1) (width + w) sawZwj
    else
      let ws : Nat × Bool :=
        if c = zwjChar then (0, true)
        else if sawZwj then (0, false)
        else ((cv.wcwidth c).getD 0, sawZwj)
      if limit < width + ws.1 then
        (cv.drawSpaces (limit - width), .brk (c :: rest))
      else
        Canvas.drawTextGo limit bounds (cv.emit (String.singleton c)) rest
          (i + c.utf8Size) (width + ws.1) ws.2

/-- Canvas::draw_text (src/syntect.rs lines 353-395). -/
def Canvas.drawText (cv : Canvas) (text : List Char) (limit : Nat)
    (bounds : Option RegionBoundaries) : Canvas × LineDrawState :=
  Canvas.drawTextGo limit bounds cv text 0 0 false

/-- Width of a text as `UnicodeWidthStr::width_cjk` counts it: the sum
of the character widths, unknown widths counting as 0. -/
def Canvas.strWidth (cv : Canvas) (text : List Char) : Nat :=
  (text.map (fun c => (cv.wcwidth c).getD 0)).sum

/-- Loop of Canvas::draw_text_no_wrap (src/syntect.rs lines 403-413). -/
def Canvas.drawTextNoWrapGo : Canvas → List Char → Nat → Canvas × Nat
  | cv, [], width => (cv, width)
  | cv, c :: rest, width =>
    if c = '\t' ∧ 0 < cv.tabWidth then
      Canvas.drawTextNoWrapGo (cv.drawSpaces cv.tabWidth) rest (width + cv.tabWidth)
    else
      Canvas.drawTextNoWrapGo (cv.emit (String.singleton c)) rest
        (width + (cv.wcwidth c).getD 0)

/-- Canvas::draw_text_no_wrap (src/syntect.rs lines 397-415). -/
def Canvas.drawTextNoWrap (cv : Canvas) (text : List Char) : Canvas × Nat :=
  if cv.tabWidth = 0 then
    (cv.emit (String.mk text), cv.strWidth text)
  else
    Canvas.drawTextNoWrapGo cv text 0

/-- Loop of Canvas::draw_text_no_wrap_with_region (src/syntect.rs lines
422-433), carrying the character index. -/
def Canvas.drawTextNoWrapWithRegionGo (bounds : RegionBoundaries) :
    Canvas → List Char → Nat → Nat → Canvas × Nat
  | cv, [], _, width => (cv, width)
  | cv, c :: rest, i, width =>
    let cv := cv.setBoundaryColor (bounds.boundaryAt i)
    if c = '\t' ∧ 0 < cv.tabWidth then
      Canvas.drawTextNoWrapWithRegionGo bounds (cv.drawSpaces cv.tabWidth) rest
        (i + 1) (width + cv.tabWidth)
    else
      Canvas.drawTextNoWrapWithRegionGo bounds (cv.emit (String.singleton c)) rest
        (i + 1) (width + (cv.wcwidth c).getD 0)

/-- Canvas::draw_text_no_wrap_with_region (src/syntect.rs lines
417-435).  Note the Rust loop enumerates characters, so `boundary_at`
receives a character index here, not a byte index. -/
def Canvas.drawTextNoWrapWithRegion (cv : Canvas) (text : List Char)
    (bounds : RegionBoundaries) : Canvas × Nat :=
  Canvas.drawTextNoWrapWithRegionGo bounds cv text 0 0

/-- Canvas::fill_spaces (src/syntect.rs lines 437-442). -/
def Canvas.fillSpaces (cv : Canvas) (writtenWidth maxWidth : Nat) : Canvas :=
  if writtenWidth < maxWidth then cv.drawSpaces (maxWidth - writtenWidth) else cv

/-- Wrapping (src/syntect.rs lines 204-217). -/
structure Wrapping where
  consumedBytes : Nat
  remainingText : List Char
  lastTokenIdx : Nat
deriving DecidableEq

/-- The per-token style step of Canvas::draw_matched (src/syntect.rs
lines 458-462): inside the region the style must not be changed, so the
foreground color and the font style of the token are only applied when
the token start offset is not contained in the region. -/
def Canvas.styleForToken (cv : Canvas) (region : Region) (startOffset : Nat)
    (tok : Token) : Canvas :=
  if ¬ region.contains startOffset then
    (cv.setFg tok.style.foreground).setFontStyle tok.style.fontStyle
  else cv

/-- Loop of Canvas::draw_matched (src/syntect.rs lines 452-481) over the
tokens, carrying the running byte offset, width and token index. -/
def Canvas.drawMatchedGo (region : Region) (maxWidth : Nat) :
    Canvas → List Token → Nat → Nat → Nat → Canvas × Option Wrapping
  | cv, [], _, width, _ =>
    -- reset the background for a region at the end of line, then pad
    ((cv.setMatchBgColor).fillSpaces width maxWidth, Option.none)
  | cv, tok :: rest, startOffset, width, idx =>
    let len := byteLen tok.text
    let endOffset := startOffset + len
    let cv := cv.styleForToken region startOffset tok
    let bounds := region.boundaries startOffset endOffset tok.style.foreground
    if cv.wrap then
      match cv.drawText tok.text (maxWidth - width) bounds with
      | (cv, .cont w) =>
        Canvas.drawMatchedGo region maxWidth (cv.unsetFontStyle tok.style.fontStyle)
          rest endOffset (width + w) (idx + 1)
      | (cv, .brk restText) =>
        (cv, some ⟨endOffset - byteLen restText, restText, idx⟩)
    else
      let drawn := match bounds with
        | some bs => cv.drawTextNoWrapWithRegion tok.text bs
        | Option.none => cv.drawTextNoWrap tok.text
      Canvas.drawMatchedGo region maxWidth (drawn.1.unsetFontStyle tok.style.fontStyle)
        rest endOffset (width + drawn.2) (idx + 1)

/-- Canvas::draw_matched (src/syntect.rs lines 444-488). -/
def Canvas.drawMatched (cv : Canvas) (region : Region) (tokens : List Token)
    (maxWidth : Nat) : Canvas × Option Wrapping :=
  Canvas.drawMatchedGo region maxWidth cv.setMatchBgColor tokens 0 0 0

/-- Loop of Canvas::draw (src/syntect.rs lines 500-521) over the tokens
of a non-matched line. -/
def Canvas.drawGo (maxWidth : Nat) :
    Canvas → List Token → Nat → Nat → Nat → Canvas × Option Wrapping
  | cv, [], _, width, _ =>
    let cv := if width = 0 then cv.setDefaultBg else cv
    let cv := if cv.hasBackground then cv.fillSpaces width maxWidth else cv
    (cv, Option.none)
  | cv, tok :: rest, byteOffset, width, idx =>
    let cv := if cv.hasBackground then cv.setBg tok.style.background else cv
    let cv := (cv.setFg tok.style.foreground).setFontStyle tok.style.fontStyle
    if cv.wrap then
      match cv.drawText tok.text (maxWidth - width) Option.none with
      | (cv, .cont w) =>
        Canvas.drawGo maxWidth (cv.unsetFontStyle tok.style.fontStyle) rest
          (byteOffset + byteLen tok.text) (width + w) (idx + 1)
      | (cv, .brk restText) =>
        (cv, some ⟨byteOffset + byteLen tok.text - byteLen restText, restText, idx⟩)
    else
      let drawn := cv.drawTextNoWrap tok.text
      Canvas.drawGo maxWidth (drawn.1.unsetFontStyle tok.style.fontStyle) rest
        (byteOffset + byteLen tok.text) (width + drawn.2) (idx + 1)

/-- Canvas::draw (src/syntect.rs lines 490-531). -/
def Canvas.draw (cv : Canvas) (tokens : List Token) (region : Option Region)
    (maxWidth : Nat) : Canvas × Option Wrapping :=
  match region with
  | some region => cv.drawMatched region tokens maxWidth
  | Option.none => Canvas.drawGo maxWidth cv tokens 0 0 0

/-!  The printer level: theme resolution, syntax detection and
`SyntectPrinter::print`.  The theme and syntax databases live in opaque
compressed blobs of external crates, so a theme set is modelled by the
set of theme names it contains and a syntax by an abstract value. -/

/-- An error of the printer (PrintError or a propagated error of an
external call). -/
structure Err where
  message : String
deriving DecidableEq

/-- A theme set (syntect::highlighting::ThemeSet), modelled by the names
of the themes it holds. -/
structure ThemeSet where
  names : List String
deriving DecidableEq

/-- ThemeSet::contains_key on the themes map. -/
def ThemeSet.containsKey (ts : ThemeSet) (name : String) : Bool :=
  ts.names.contains name

/-- load_themes (src/syntect.rs lines 876-891): `bat` is the curated
theme set deserialized from the embedded blob, `defaults` the set of
`ThemeSet::load_defaults()`. -/
def loadThemes (bat defaults : ThemeSet) (name : Option String) : Except Err ThemeSet :=
  match name with
  | Option.none => .ok bat
  | some n =>
    if bat.containsKey n then .ok bat
    else if defaults.containsKey n then .ok defaults
    else .error ⟨"Unknown theme " ++ n ++ ". See --list-themes output"⟩

/-- TermColorSupport of the printer options. -/
inductive TermColorSupport where
  | ansi16
  | ansi256
  | true16m
deriving DecidableEq

/-- The theme name chosen by SyntectPrinter::theme (src/syntect.rs lines
940-949): the configured name, or a default depending on the color
support. -/
def themeNameFor (optsTheme : Option String) (support : TermColorSupport) : String :=
  optsTheme.getD (if support = .ansi16 then "ansi" else "Monokai Extended")

/-- A file path, modelled by what the printer inspects of it: the
result of `Path::extension()`. -/
structure FPath where
  extension : Option String
deriving DecidableEq

/-- An entry of the syntax database (syntect SyntaxReference), abstract. -/
structure Syn where
  name : String
deriving DecidableEq

/-- A LineMatch of the chunk model (crate::chunk::LineMatch). -/
structure LineMatch where
  lineNumber : Nat
  range : Option (Nat × Nat)
deriving DecidableEq

/-- A File record handed to the printer (crate::chunk::File). -/
structure File where
  path : FPath
  lineMatches : List LineMatch
  chunks : List (Nat × Nat)
  contents : List String
deriving DecidableEq

/-- One operation issued to the locked shared output. -/
inductive WriteOp where
  | writeAll (buf : List String)
  | flush
deriving DecidableEq

/-- The state of a SyntectPrinter together with the behaviour of its
external collaborators: `findSyntaxByName` and `findSyntaxForFile` model
the two lookups of the syntect SyntaxSet (the second one reads the first
line of the file, so it can fail with an io error), `plainText` models
`find_syntax_plain_text()`, and `drawHeader`, `drawBody`, `drawFooter`
model the Drawer pipeline writing into the in-memory buffer (the actual
bytes depend on the external highlighter). -/
structure Printer where
  optsTheme : Option String
  colorSupport : TermColorSupport
  findSyntaxByName : String → Option Syn
  findSyntaxForFile : FPath → Except Err (Option Syn)
  plainText : Syn
  drawHeader : FPath → Except Err (List String)
  drawBody : File → Syn → Except Err (List String)
  drawFooter : Except Err (List String)

/-- The hard-coded extension overrides of SyntectPrinter::find_syntax
(src/syntect.rs lines 952-957). -/
def overrideName (path : FPath) : Option String :=
  match path.extension with
  | some "fs" => some "F#"
  | some "h" => some "C++"
  | some "pac" => some "JavaScript (Babel)"
  | _ => Option.none

/-- SyntectPrinter::find_syntax (src/syntect.rs lines 951-966). -/
def Printer.findSyntax (p : Printer) (path : FPath) : Except Err Syn :=
  match (overrideName path).bind p.findSyntaxByName with
  | some s => .ok s
  | Option.none =>
    match p.findSyntaxForFile path with
    | .error e => .error e
    | .ok found => .ok (found.getD p.plainText)

/-- SyntectPrinter::print (src/syntect.rs lines 973-992).  The result is
the returned value together with the trace of operations issued to the
shared locked output: the file is rendered into the in-memory buffer
first, and only on success the whole buffer is written with a single
`write_all` followed by a `flush`. -/
def Printer.print (p : Printer) (file : File) : Except Err Unit × List WriteOp :=
  if file.chunks.isEmpty || file.lineMatches.isEmpty then
    (.ok (), [])
  else
    match p.findSyntax file.path with
    | .error e => (.error e, [])
    | .ok syn =>
      match p.drawHeader file.path with
      | .error e => (.error e, [])
      | .ok header =>
        match p.drawBody file syn with
        | .error e => (.error e, [])
        | .ok body =>
          match p.drawFooter with
          | .error e => (.error e, [])
          | .ok footer =>
            (.ok (), [.writeAll (header ++ body ++ footer), .flush])

/-!  Concrete instances used to evaluate the theorems below on closed
inputs. -/

/-- A concrete canvas: no-wrap mode, tab width 4, true color support,
no background painting, no region colors, every character one column
wide. -/
def sampleCanvas : Canvas :=
  { out := [], tabWidth := 4, themeBg := Option.none, trueColor := true,
    hasBackground := false, matchBg := Option.none, regionFg := Option.none,
    regionBg := Option.none, wrap := false, currentFg := Option.none,
    currentBg := Option.none, wcwidth := fun _ => some 1, rgb256 := fun _ _ _ => 0 }

/-- A bold red token with text "ab". -/
def boldTokenAB : Token :=
  ⟨⟨⟨1, 0, 0, 0⟩, ⟨0, 0, 0, 0⟩, ⟨true, false, false⟩⟩, ['a', 'b']⟩

/-- A bold red token with text "a". -/
def boldTokenA : Token :=
  ⟨⟨⟨1, 0, 0, 0⟩, ⟨0, 0, 0, 0⟩, ⟨true, false, false⟩⟩, ['a']⟩

/-- A second token with exactly the same style as `boldTokenA` and text
"b". -/
def boldTokenB : Token :=
  ⟨⟨⟨1, 0, 0, 0⟩, ⟨0, 0, 0, 0⟩, ⟨true, false, false⟩⟩, ['b']⟩

/-- A concrete printer whose external collaborators all succeed. -/
def samplePrinter : Printer :=
  { optsTheme := Option.none, colorSupport := .true16m,
    findSyntaxByName := fun _ => Option.none,
    findSyntaxForFile := fun _ => .ok Option.none,
    plainText := ⟨"Plain Text"⟩,
    drawHeader := fun _ => .ok ["H"],
    drawBody := fun _ _ => .ok ["B"],
    drawFooter := .ok ["F"] }

/-- A concrete printer whose first-line syntax detection fails with an
io error. -/
def ioErrPrinter : Printer :=
  { optsTheme := Option.none, colorSupport := .true16m,
    findSyntaxByName := fun _ => Option.none,
    findSyntaxForFile := fun _ => .error ⟨"io error"⟩,
    plainText := ⟨"Plain Text"⟩,
    drawHeader := fun _ => .ok [],
    drawBody := fun _ _ => .ok [],
    drawFooter := .ok [] }

/-- A concrete file with one chunk and one line match. -/
def sampleFile : File :=
  ⟨⟨some "txt"⟩, [⟨3, Option.none⟩], [(1, 6)], ["line"]⟩

/-- A concrete file with no chunks and no line matches. -/
def emptyFile : File :=
  ⟨⟨some "txt"⟩, [], [], []⟩

/-!  Theorems. -/

/-- Claim C1, counterexample: Canvas::draw_matched is given a single
bold token whose starting byte offset 0 lies inside the match region
(0, 10).  The whole output is the two characters of the token followed
by the unconditional unset escape; in particular the bold escape
"\x1b[1m" is never emitted before the text, although the claim states
that bold and underline font styles are still applied. -/
theorem c1_counterexample :
    (Canvas.drawMatched sampleCanvas ⟨some (0, 10)⟩ [boldTokenAB] 2).1.out
        = ["a", "b", "\x1b[22m"] ∧
    "\x1b[1m" ∉ (Canvas.drawMatched sampleCanvas ⟨some (0, 10)⟩ [boldTokenAB] 2).1.out :=
  ⟨by decide, by decide⟩

/-- Claim C1, amended: in Canvas::draw_matched, for a token whose
starting byte offset lies inside the match region, neither the token
foreground color nor its font styles are applied before its text is
drawn (the region style stays in effect entirely); both are applied when
the start offset is outside the region. -/
theorem c1_styleForToken_spec (cv : Canvas) (region : Region) (startOffset : Nat)
    (tok : Token) :
    (region.contains startOffset = true →
      Canvas.styleForToken cv region startOffset tok = cv) ∧
    (region.contains startOffset = false →
      Canvas.styleForToken cv region startOffset tok =
        (cv.setFg tok.style.foreground).setFontStyle tok.style.fontStyle) := by
  constructor <;> intro h <;> simp [Canvas.styleForToken, h]

/-- Claim C1, witness: the amended theorem evaluated at the
counterexample input. -/
theorem c1_witness :
    Canvas.styleForToken sampleCanvas ⟨some (0, 10)⟩ 0 boldTokenAB = sampleCanvas :=
  (c1_styleForToken_spec sampleCanvas ⟨some (0, 10)⟩ 0 boldTokenAB).1 (by decide)

/-- Claim C2: in the loop of Canvas::draw_text with positive tab width,
a tab character is replaced by exactly tab_width spaces when they fit
into the remaining budget; when they would exceed it, spaces are padded
only up to the budget, the call returns Break, and the remaining slice
begins at the byte immediately after the tab, so a tab is never split
across a wrap boundary. -/
theorem c2_drawText_tab_spec (cv : Canvas) (rest : List Char) (i width limit : Nat)
    (z : Bool) (hTab : 0 < cv.tabWidth) :
    (width + cv.tabWidth ≤ limit →
      Canvas.drawTextGo limit Option.none cv ('\t' :: rest) i width z =
        Canvas.drawTextGo limit Option.none
          { cv with out := cv.out ++ List.replicate cv.tabWidth " " }
          rest (i + 1) (width + cv.tabWidth) z) ∧
    (limit < width + cv.tabWidth →
      Canvas.drawTextGo limit Option.none cv ('\t' :: rest) i width z =
        ({ cv with out := cv.out ++ List.replicate (limit - width) " " },
          LineDrawState.brk rest)) := by
  constructor
  · intro h
    have hnot : ¬ limit < width + cv.tabWidth := by omega
    simp [Canvas.drawTextGo, hTab, hnot, Canvas.drawSpaces]
  · intro h
    simp [Canvas.drawTextGo, hTab, h, Canvas.drawSpaces]

/-- Claim C2, witness: with tab width 4, budget 3 and one pending
character, the tab is padded with 3 spaces, the call breaks, and the
remaining text starts right after the tab. -/
theorem c2_witness :
    Canvas.drawTextGo 3 Option.none sampleCanvas ['\t', 'x'] 0 0 false =
      ({ sampleCanvas with out := sampleCanvas.out ++ List.replicate 3 " " },
        LineDrawState.brk ['x']) :=
  (c2_drawText_tab_spec sampleCanvas ['x'] 0 0 3 false (by decide)).2 (by decide)

/-- Claim C3: in Canvas::draw_text, the zero width joiner U+200D
contributes width 0 and suppresses the width of exactly the one
immediately following character: drawing "A U+200D B" accumulates total
width width(A), drawing "A U+200D B U+200D C" also accumulates total
width width(A), and a character of unknown width counts as 0.  The
hypotheses keep A, B, C ordinary characters (not tabs, not joiners)
and require the width of A to fit into the budget. -/
theorem c3_drawText_zwj_spec (cv : Canvas) (A B C : Char) (limit : Nat)
    (hA : A ≠ '\t') (hAz : A ≠ zwjChar) (hB : B ≠ '\t') (hBz : B ≠ zwjChar)
    (hC : C ≠ '\t') (hCz : C ≠ zwjChar)
    (hLim : (cv.wcwidth A).getD 0 ≤ limit) :
    (cv.drawText [A, zwjChar, B] limit Option.none).2
        = LineDrawState.cont ((cv.wcwidth A).getD 0) ∧
    (cv.drawText [A, zwjChar, B, zwjChar, C] limit Option.none).2
        = LineDrawState.cont ((cv.wcwidth A).getD 0) ∧
    (∀ D, D ≠ '\t' → D ≠ zwjChar → cv.wcwidth D = Option.none →
      (cv.drawText [D] limit Option.none).2 = LineDrawState.cont 0) := by
  have hzt : zwjChar ≠ '\t' := by decide
  have h0 : ¬ limit < (cv.wcwidth A).getD 0 := by omega
  refine ⟨?_, ?_, ?_⟩
  · simp [Canvas.drawText, Canvas.drawTextGo, Canvas.emit, hA, hAz, hB, hBz, hzt, h0]
  · simp [Canvas.drawText, Canvas.drawTextGo, Canvas.emit, hA, hAz, hB, hBz, hC, hCz,
      hzt, h0]
  · intro D hD hDz hw
    simp [Canvas.drawText, Canvas.drawTextGo, Canvas.emit, hD, hDz, hw]

/-- Claim C3, witness: with a width oracle giving every character width
one, "A U+200D B" and "A U+200D B U+200D C" both draw to total width 1,
the width of A alone. -/
theorem c3_witness :
    (sampleCanvas.drawText ['A', zwjChar, 'B'] 100 Option.none).2
        = LineDrawState.cont 1 ∧
    (sampleCanvas.drawText ['A', zwjChar, 'B', zwjChar, 'C'] 100 Option.none).2
        = LineDrawState.cont 1 := by
  have h := c3_drawText_zwj_spec sampleCanvas 'A' 'B' 'C' 100 (by decide) (by decide)
    (by decide) (by decide) (by decide) (by decide) (by decide)
  exact ⟨h.1, h.2.1⟩

/-- Claim C4: Canvas::set_color, called with code 30 for the foreground
and code 40 for the background, emits no escape when a = 1; the SGR
30+r / 40+r form when a = 0 and r ≤ 7; the 256-color form 38;5;r /
48;5;r when a = 0 and r > 7; the true-color form 38;2;r;g;b /
48;2;r;g;b when true-color support is enabled; and otherwise 38;5;i /
48;5;i where i is the 256-color downconversion of (r, g, b). -/
theorem c4_setColor_spec (cv : Canvas) (c : Color) :
    (c.a = 1 → cv.setColor 30 c = cv ∧ cv.setColor 40 c = cv) ∧
    (c.a = 0 → c.r ≤ 7 →
      cv.setColor 30 c = cv.emit ("\x1b[" ++ toString (c.r + 30) ++ "m") ∧
      cv.setColor 40 c = cv.emit ("\x1b[" ++ toString (c.r + 40) ++ "m")) ∧
    (c.a = 0 → 7 < c.r →
      cv.setColor 30 c = cv.emit ("\x1b[38;5;" ++ toString c.r ++ "m") ∧
      cv.setColor 40 c = cv.emit ("\x1b[48;5;" ++ toString c.r ++ "m")) ∧
    (c.a ≠ 0 → c.a ≠ 1 → cv.trueColor = true →
      cv.setColor 30 c = cv.emit ("\x1b[38;2;" ++ toString c.r ++ ";"
        ++ toString c.g ++ ";" ++ toString c.b ++ "m") ∧
      cv.setColor 40 c = cv.emit ("\x1b[48;2;" ++ toString c.r ++ ";"
        ++ toString c.g ++ ";" ++ toString c.b ++ "m")) ∧
    (c.a ≠ 0 → c.a ≠ 1 → cv.trueColor = false →
      cv.setColor 30 c = cv.emit ("\x1b[38;5;" ++ toString (cv.rgb256 c.r c.g c.b) ++ "m") ∧
      cv.setColor 40 c = cv.emit ("\x1b[48;5;" ++ toString (cv.rgb256 c.r c.g c.b) ++ "m")) := by
  refine ⟨?_, ?_, ?_, ?_, ?_⟩
  · intro h1
    constructor <;> simp [Canvas.setColor, h1]
  · intro h0 h7
    constructor <;> simp [Canvas.setColor, h0, h7]
  · intro h0 h7
    have hn : ¬ c.r ≤ 7 := by omega
    refine ⟨?_, ?_⟩
    · simp only [Canvas.setColor, h0, hn, and_false, if_false, if_true, reduceIte]
      rw [show ("\x1b[" ++ toString (30 + 8) : String) = "\x1b[38" from rfl,
        show ("\x1b[38" ++ ";5;" : String) = "\x1b[38;5;" from rfl]
    · simp only [Canvas.setColor, h0, hn, and_false, if_false, if_true, reduceIte]
      rw [show ("\x1b[" ++ toString (40 + 8) : String) = "\x1b[48" from rfl,
        show ("\x1b[48" ++ ";5;" : String) = "\x1b[48;5;" from rfl]
  · intro ha0 ha1 htc
    refine ⟨?_, ?_⟩
    · simp only [Canvas.setColor, ha0, ha1, htc, false_and, if_false, if_true, reduceIte]
      rw [show ("\x1b[" ++ toString (30 + 8) : String) = "\x1b[38" from rfl,
        show ("\x1b[38" ++ ";2;" : String) = "\x1b[38;2;" from rfl]
    · simp only [Canvas.setColor, ha0, ha1, htc, false_and, if_false, if_true, reduceIte]
      rw [show ("\x1b[" ++ toString (40 + 8) : String) = "\x1b[48" from rfl,
        show ("\x1b[48" ++ ";2;" : String) = "\x1b[48;2;" from rfl]
  · intro ha0 ha1 htc
    refine ⟨?_, ?_⟩
    · simp only [Canvas.setColor, ha0, ha1, htc, false_and, if_false, if_true, reduceIte]
      rw [show ("\x1b[" ++ toString (30 + 8) : String) = "\x1b[38" from rfl,
        show ("\x1b[38" ++ ";5;" : String) = "\x1b[38;5;" from rfl]
      simp
    · simp only [Canvas.setColor, ha0, ha1, htc, false_and, if_false, if_true, reduceIte]
      rw [show ("\x1b[" ++ toString (40 + 8) : String) = "\x1b[48" from rfl,
        show ("\x1b[48" ++ ";5;" : String) = "\x1b[48;5;" from rfl]
      simp

/-- Claim C4, witness: the true-color branch evaluated at (200, 100,
50, 255) with code 30. -/
theorem c4_witness :
    Canvas.setColor sampleCanvas 30 ⟨200, 100, 50, 255⟩ =
      Canvas.emit sampleCanvas "\x1b[38;2;200;100;50m" := by
  have h := (c4_setColor_spec sampleCanvas ⟨200, 100, 50, 255⟩).2.2.2.1
    (by decide) (by decide) rfl
  exact h.1

/-- Canvas::set_color appends no string when the color is pass-through
(a = 1) and exactly one string otherwise. -/
theorem setColor_out_length (cv : Canvas) (code : Nat) (c : Color) :
    (c.a = 1 → (cv.setColor code c).out = cv.out) ∧
    (c.a ≠ 1 → (cv.setColor code c).out.length = cv.out.length + 1) := by
  constructor
  · intro h1
    simp [Canvas.setColor, h1]
  · intro h1
    by_cases h2 : c.a = 0 ∧ c.r ≤ 7
    · simp [Canvas.setColor, h2, Canvas.emit]
    · by_cases h3 : c.a = 0
      · have h7 : ¬ c.r ≤ 7 := fun h => h2 ⟨h3, h⟩
        simp [Canvas.setColor, h2, h3, h7, Canvas.emit]
      · by_cases h4 : cv.trueColor
        · simp [Canvas.setColor, h2, h3, h1, h4, Canvas.emit]
        · simp [Canvas.setColor, h2, h3, h1, h4, Canvas.emit]

/-- Claim C5, counterexample: Canvas::draw on two consecutive tokens
with identical style (same foreground, same background, both bold)
emits the font style escapes "\x1b[22m" and "\x1b[1m" between the
character "a" of the first token and the character "b" of the second,
so an SGR escape is emitted between two consecutive characters drawn
with identical style, contradicting the claim. -/
theorem c5_counterexample :
    (sampleCanvas.draw [boldTokenA, boldTokenB] Option.none 80).1.out
        = ["\x1b[31m", "\x1b[1m", "a", "\x1b[22m", "\x1b[1m", "b", "\x1b[22m"] ∧
    ((sampleCanvas.draw [boldTokenA, boldTokenB] Option.none 80).1.out.drop 3).take 2
        = ["\x1b[22m", "\x1b[1m"] :=
  ⟨by decide, by decide⟩

/-- Claim C5, amended: the color memoization of Canvas::set_fg holds —
a second set_fg with the same color emits nothing, so after set_fg(c)
followed by set_fg(c) at most one SGR sequence was emitted in total:
exactly one when c is not the pass-through color (a ≠ 1) and was not
already current, and none when a = 1.  Font style escapes, by contrast,
are re-emitted around every token, so consecutive identically styled
characters of different tokens may still have SGR escapes between
them. -/
theorem c5_setFg_memoized (cv : Canvas) (c : Color) :
    (cv.setFg c).setFg c = cv.setFg c ∧
    (cv.currentFg = some c → cv.setFg c = cv) ∧
    (c.a = 1 → (cv.setFg c).out = cv.out) ∧
    (c.a ≠ 1 → cv.currentFg ≠ some c →
      (cv.setFg c).out.length = cv.out.length + 1) := by
  refine ⟨?_, ?_, ?_, ?_⟩
  · by_cases h : cv.currentFg = some c
    · simp [Canvas.setFg, h]
    · simp [Canvas.setFg, h]
  · intro h
    simp [Canvas.setFg, h]
  · intro h1
    by_cases h : cv.currentFg = some c
    · simp [Canvas.setFg, h]
    · simp [Canvas.setFg, h, (setColor_out_length cv 30 c).1 h1]
  · intro h1 h2
    rw [Canvas.setFg, if_pos h2]
    exact (setColor_out_length cv 30 c).2 h1

/-- Claim C5, witness: a first set_fg on a fresh canvas with a
non-pass-through color emits exactly one SGR sequence; the theorem also
gives that the second identical call adds nothing. -/
theorem c5_witness :
    (sampleCanvas.setFg ⟨1, 0, 0, 0⟩).out.length = sampleCanvas.out.length + 1 :=
  (c5_setFg_memoized sampleCanvas ⟨1, 0, 0, 0⟩).2.2.2 (by decide) (by decide)

/-- Claim C6: SyntectPrinter::print renders the File fully into an
in-memory buffer and only then issues writes to the shared output: when
the syntax lookup or any rendering step returns an error, print returns
that error and no operation at all reaches the output; when everything
succeeds, the whole buffer is written with a single write_all followed
by a flush. -/
theorem c6_print_buffered (p : Printer) (file : File)
    (hc : file.chunks ≠ []) (hm : file.lineMatches ≠ []) :
    (∀ e, p.findSyntax file.path = .error e → p.print file = (.error e, [])) ∧
    (∀ s e, p.findSyntax file.path = .ok s → p.drawHeader file.path = .error e →
      p.print file = (.error e, [])) ∧
    (∀ s hd e, p.findSyntax file.path = .ok s → p.drawHeader file.path = .ok hd →
      p.drawBody file s = .error e → p.print file = (.error e, [])) ∧
    (∀ s hd bd e, p.findSyntax file.path = .ok s → p.drawHeader file.path = .ok hd →
      p.drawBody file s = .ok bd → p.drawFooter = .error e →
      p.print file = (.error e, [])) ∧
    (∀ s hd bd ft, p.findSyntax file.path = .ok s → p.drawHeader file.path = .ok hd →
      p.drawBody file s = .ok bd → p.drawFooter = .ok ft →
      p.print file = (.ok (), [.writeAll (hd ++ bd ++ ft), .flush])) := by
  have hempty : (file.chunks.isEmpty || file.lineMatches.isEmpty) = false := by
    simp [List.isEmpty_iff, hc, hm]
  refine ⟨?_, ?_, ?_, ?_, ?_⟩
  · intro e he
    simp [Printer.print, hempty, he]
  · intro s e hs he
    simp [Printer.print, hempty, hs, he]
  · intro s hd e hs hh he
    simp [Printer.print, hempty, hs, hh, he]
  · intro s hd bd e hs hh hb he
    simp [Printer.print, hempty, hs, hh, hb, he]
  · intro s hd bd ft hs hh hb hf
    simp [Printer.print, hempty, hs, hh, hb, hf]

/-- Claim C6, witness: the success branch evaluated on the sample
printer and file: one write_all with the concatenated buffer, then one
flush. -/
theorem c6_witness :
    samplePrinter.print sampleFile =
      (.ok (), [.writeAll ["H", "B", "F"], .flush]) :=
  (c6_print_buffered samplePrinter sampleFile (by decide) (by decide)).2.2.2.2
    ⟨"Plain Text"⟩ ["H"] ["B"] ["F"] rfl rfl rfl rfl

/-- Claim C7: load_themes prefers the curated (bat) theme set when it
contains the requested name, then the default set, and otherwise fails
with the unknown-theme error; with no name the bat set is returned and
the name used for rendering is "ansi" for 16-color support and "Monokai
Extended" otherwise (a configured name is used as-is). -/
theorem c7_loadThemes_spec (bat defaults : ThemeSet) (n : String) :
    (loadThemes bat defaults Option.none = .ok bat) ∧
    (bat.containsKey n = true → loadThemes bat defaults (some n) = .ok bat) ∧
    (bat.containsKey n = false → defaults.containsKey n = true →
      loadThemes bat defaults (some n) = .ok defaults) ∧
    (bat.containsKey n = false → defaults.containsKey n = false →
      loadThemes bat defaults (some n) =
        .error ⟨"Unknown theme " ++ n ++ ". See --list-themes output"⟩) ∧
    (themeNameFor Option.none TermColorSupport.ansi16 = "ansi") ∧
    (∀ s : TermColorSupport, s ≠ .ansi16 →
      themeNameFor Option.none s = "Monokai Extended") ∧
    (∀ t : String, ∀ s : TermColorSupport, themeNameFor (some t) s = t) := by
  refine ⟨?_, ?_, ?_, ?_, ?_, ?_, ?_⟩
  · simp [loadThemes]
  · intro h
    simp [loadThemes, h]
  · intro h1 h2
    simp [loadThemes, h1, h2]
  · intro h1 h2
    simp [loadThemes, h1, h2]
  · simp [themeNameFor]
  · intro s hs
    simp [themeNameFor, hs]
  · intro t s
    simp [themeNameFor]

/-- Claim C7, witness: a name present in the curated set picks the
curated set; a name present only in the defaults picks the defaults. -/
theorem c7_witness :
    loadThemes ⟨["Monokai Extended", "Nord"]⟩ ⟨["base16"]⟩ (some "Nord")
        = .ok ⟨["Monokai Extended", "Nord"]⟩ ∧
    loadThemes ⟨["Monokai Extended"]⟩ ⟨["base16"]⟩ (some "base16")
        = .ok ⟨["base16"]⟩ :=
  ⟨(c7_loadThemes_spec ⟨["Monokai Extended", "Nord"]⟩ ⟨["base16"]⟩ "Nord").2.1
      (by decide),
    (c7_loadThemes_spec ⟨["Monokai Extended"]⟩ ⟨["base16"]⟩ "base16").2.2.1
      (by decide) (by decide)⟩

/-- Claim C8, counterexample: SyntectPrinter::find_syntax propagates an
error of the first-line detection of the database (the `?` operator on
find_syntax_for_file), so on a printer whose detection reports an io
error it fails instead of returning the plain-text syntax,
contradicting the never-failing part of the claim. -/
theorem c8_counterexample :
    Printer.findSyntax ioErrPrinter ⟨some "txt"⟩ = .error ⟨"io error"⟩ := rfl

/-- Claim C8, amended: find_syntax maps extension fs to "F#", h to
"C++" and pac to "JavaScript (Babel)" before the database lookup (the
override applies when the named syntax exists); otherwise it delegates
to the database by-extension or first-line detection, returns the
plain-text syntax when the detection resolves nothing, and propagates
an error of the detection instead of never failing. -/
theorem c8_findSyntax_spec (p : Printer) (path : FPath) :
    (overrideName ⟨some "fs"⟩ = some "F#") ∧
    (overrideName ⟨some "h"⟩ = some "C++") ∧
    (overrideName ⟨some "pac"⟩ = some "JavaScript (Babel)") ∧
    (∀ n s, overrideName path = some n → p.findSyntaxByName n = some s →
      p.findSyntax path = .ok s) ∧
    ((overrideName path).bind p.findSyntaxByName = Option.none →
      (∀ s, p.findSyntaxForFile path = .ok (some s) → p.findSyntax path = .ok s) ∧
      (p.findSyntaxForFile path = .ok Option.none → p.findSyntax path = .ok p.plainText) ∧
      (∀ e, p.findSyntaxForFile path = .error e → p.findSyntax path = .error e)) := by
  refine ⟨rfl, rfl, rfl, ?_, ?_⟩
  · intro n s hn hs
    simp [Printer.findSyntax, hn, hs]
  · intro h
    refine ⟨?_, ?_, ?_⟩
    · intro s hs
      simp [Printer.findSyntax, h, hs]
    · intro hs
      simp [Printer.findSyntax, h, hs]
    · intro e he
      simp [Printer.findSyntax, h, he]

/-- Claim C8, witness: on a path with an unknown extension and a
detection resolving nothing, the plain-text syntax is returned. -/
theorem c8_witness :
    Printer.findSyntax samplePrinter ⟨some "txt"⟩ = .ok ⟨"Plain Text"⟩ :=
  ((c8_findSyntax_spec samplePrinter ⟨some "txt"⟩).2.2.2.2 rfl).2.1 rfl

/-- Claim C10: on a File whose chunk list or line match list is empty,
SyntectPrinter::print returns Ok and issues no operation to the shared
output, leaving it unchanged. -/
theorem c10_print_nothing (p : Printer) (file : File)
    (h : file.chunks = [] ∨ file.lineMatches = []) :
    p.print file = (.ok (), []) := by
  rcases h with h | h <;> simp [Printer.print, h]

/-- Claim C10, witness: printing the empty file writes nothing. -/
theorem c10_witness :
    samplePrinter.print emptyFile = (.ok (), []) :=
  c10_print_nothing samplePrinter emptyFile (Or.inl rfl)
